import Mathlib

/-!
Verification development for the OCS dome / OnStep_Aux INDI drivers'
shared command-protocol engine (framing, transaction accessors,
sequencing guard, capability discovery).

Byte strings are modelled as `List Nat` (ASCII codes); machine `int`
status codes as `Int`.  The external tty layer (indicom) follows the
INDI convention: `TTY_OK = 0`, failures are the negative codes
`-1 .. -8` (`TTY_WRITE_ERROR = -2`, `TTY_TIME_OUT = -4`, ...).
-/

namespace OnStepDrivers

/-- `RB_MAX_LEN` from ocs.h line 27 / onstep_aux.h : response buffer size. -/
def RB_MAX_LEN : Nat := 64

/-- `RES_ERR_FORMAT` from `enum ResponseErrors` (ocs.h line 29). -/
def RES_ERR_FORMAT : Int := -1001

/-- The tty-layer failure codes of the external indicom collaborator
(`TTY_READ_ERROR .. TTY_OVERFLOW`); success is `TTY_OK = 0`. -/
def ttyFailureCodes : List Int := [-1, -2, -3, -4, -5, -6, -7, -8]

/-- C++ implicit `int` → `bool` conversion (used when the drivers
`return error_type;` from a `bool` function). -/
def intToBool (i : Int) : Bool := i != 0

/-- ASCII code of the protocol terminator character `'#'`. -/
def hashByte : Nat := 35

/-- ASCII code of `'0'`, the single-char success convention. -/
def zeroByte : Nat := 48

/-- `strchr(data, '#')` under C-string semantics: scan bytes until the
first NUL; return the index of the first `'#'` found before it. -/
def strchrHash : List Nat → Option Nat
  | [] => none
  | b :: rest =>
    if b = 0 then none
    else if b = hashByte then some 0
    else (strchrHash rest).map (· + 1)

/-- C-string payload of a buffer: the bytes before the first NUL. -/
def cstr (l : List Nat) : List Nat := l.takeWhile (· ≠ 0)

/-- The shared framing block of every `getCommand*Response` accessor
(e.g. onstep_aux.cpp lines 1584-1592, ocs.h lines 1207-1218):
`term = strchr(data,'#'); if (term) *term = '\0';` then NUL-terminate
at `nbytes_read` when `nbytes_read < RB_MAX_LEN`, else force-NUL at
`RB_MAX_LEN - 1`. -/
def frameBuffer (buf : List Nat) (n : Nat) : List Nat :=
  let b1 := match strchrHash buf with
    | some k => buf.set k 0
    | none => buf
  if n < RB_MAX_LEN then b1.set n 0 else b1.set (RB_MAX_LEN - 1) 0

/-- The indices written by the framing block (for the no-write-past-63
part of the truncation-safety property). -/
def frameWrites (buf : List Nat) (n : Nat) : List Nat :=
  (match strchrHash buf with
    | some k => [k]
    | none => []) ++ [if n < RB_MAX_LEN then n else RB_MAX_LEN - 1]

/-- The 64-byte zero-initialised response buffer after the tty read has
deposited `rb` bytes into it (`char data[RB_MAX_LEN] = {0}`). -/
def fillBuf (rb : List Nat) : List Nat :=
  rb.take RB_MAX_LEN ++ List.replicate (RB_MAX_LEN - rb.length) 0

/-- `sscanf(data, "%i", ...)` matching success: after optional
whitespace and an optional sign there is at least one decimal digit.
(The `%i` base prefixes `0x`/`0` start with a digit as well, so
matching success/failure is unaffected by them.) -/
def scanfIntOk (payload : List Nat) : Bool :=
  let afterWs := payload.dropWhile (fun b => b = 32 ∨ b = 9 ∨ b = 10 ∨ b = 11 ∨ b = 12 ∨ b = 13)
  let afterSign := match afterWs with
    | b :: rest => if b = 43 ∨ b = 45 then rest else afterWs
    | [] => []
  match afterSign with
  | b :: _ => 48 ≤ b ∧ b ≤ 57
  | [] => false

/-- Decimal value recovered by `sscanf("%i")` on matching success
(digits after optional sign; base prefixes not modelled — no analysed
input uses them). -/
def scanfIntVal (payload : List Nat) : Int :=
  let afterWs := payload.dropWhile (fun b => b = 32 ∨ b = 9 ∨ b = 10 ∨ b = 11 ∨ b = 12 ∨ b = 13)
  let (neg, digitsPart) := match afterWs with
    | b :: rest => if b = 45 then (true, rest) else if b = 43 then (false, rest) else (false, afterWs)
    | [] => (false, [])
  let ds := digitsPart.takeWhile (fun b => 48 ≤ b ∧ b ≤ 57)
  let v : Int := ds.foldl (fun acc d => acc * 10 + (Int.ofNat d - 48)) 0
  if neg then -v else v

/-- `std::stof` succeeds (does not throw `std::invalid_argument`):
after optional whitespace/sign the payload starts with a digit or with
`'.'` followed by a digit.  `std::stof("")` throws. -/
def stofOk (payload : List Nat) : Bool :=
  let afterWs := payload.dropWhile (fun b => b = 32 ∨ b = 9 ∨ b = 10 ∨ b = 11 ∨ b = 12 ∨ b = 13)
  let afterSign := match afterWs with
    | b :: rest => if b = 43 ∨ b = 45 then rest else afterWs
    | [] => []
  match afterSign with
  | b :: rest =>
    (decide (48 ≤ b ∧ b ≤ 57)) || ((b == 46) && match rest with
      | c :: _ => decide (48 ≤ c ∧ c ≤ 57)
      | [] => false)
  | [] => false

/-- Outcome of one transaction at the transport, supplied by the
environment: status of `tty_write_string`, status of the
`tty_read_*` call, and the bytes it deposited. -/
structure IOEnv where
  writeStatus : Int
  readStatus : Int
  readBytes : List Nat
deriving DecidableEq, Repr

/-- The C-string payload a `getCommand*Response` accessor leaves in the
caller's buffer: framing applied to the filled buffer. -/
def framedPayload (env : IOEnv) : List Nat :=
  cstr (frameBuffer (fillBuf env.readBytes) env.readBytes.length)

/-- Result of a `bool`-returning accessor (`sendOSCommand` /
`sendOCSCommand`): the returned boolean and the state of the
sequencing-guard flag `waitingForResponse` after return. -/
structure BoolOut where
  ret : Bool
  busy : Bool
deriving DecidableEq, Repr

/-- Result of an `int`-returning accessor: returned code (byte count on
success, tty code or `RES_ERR_FORMAT` on failure), the guard flag after
return, the payload left in the caller's buffer, whether the
resynchronising `tcflush(fd, TCIOFLUSH)` error path ran, and the value
deposited through the `int*`/`double*` out-parameter (`none` when
`sscanf` did not write it). -/
structure IntOut where
  ret : Int
  busy : Bool
  payload : List Nat
  flushed : Bool
  value : Option Int
deriving DecidableEq, Repr

/-- `OnStep_Aux::sendOSCommand` (onstep_aux.cpp lines 1379-1409).
`blockUntilClear()` has set `waitingForResponse = true` on entry; a
write failure returns the raw `error_type` through the `bool` return
type without `clearBlock()`. -/
def sendOSCommand (env : IOEnv) : BoolOut :=
  -- blockUntilClear(): waitingForResponse := true
  if env.writeStatus ≠ 0 then
    { ret := intToBool env.writeStatus, busy := true }       -- return error_type;
  else
    -- tty_read_expanded of 1 byte; tcflush; clearBlock()
    if env.readBytes.length < 1 then
      { ret := false, busy := false }                        -- timeout/error warn
    else
      { ret := env.readBytes.headD 0 == zeroByte, busy := false }

/-- `OCS::sendOCSCommand` (ocs.h lines 996-1024): identical to
`sendOSCommand` except the OCS driver has no sequencing guard; the
model reports `busy := false` throughout for it. -/
def sendOCSCommand (env : IOEnv) : BoolOut :=
  if env.writeStatus ≠ 0 then
    { ret := intToBool env.writeStatus, busy := false }      -- return error_type;
  else
    if env.readBytes.length < 1 then
      { ret := false, busy := false }
    else
      { ret := env.readBytes.headD 0 == zeroByte, busy := false }

/-- `OnStep_Aux::getCommandSingleCharResponse` (onstep_aux.cpp lines
1414-1451): 1-byte read; early returns on write error *and* read error
skip `clearBlock()`. -/
def getCommandSingleCharResponse (env : IOEnv) : IntOut :=
  if env.writeStatus ≠ 0 then
    { ret := env.writeStatus, busy := true, payload := [], flushed := false, value := none }
  else if env.readStatus ≠ 0 then
    { ret := env.readStatus, busy := true,
      payload := cstr (fillBuf env.readBytes), flushed := false, value := none }
  else
    { ret := Int.ofNat env.readBytes.length, busy := false,
      payload := framedPayload env,
      flushed := false, value := none }

/-- `OnStep_Aux::getCommandSingleCharErrorOrLongResponse` (onstep_aux.cpp
lines 1563-1603): section read until `'#'`; framing and `clearBlock()`
run before the read-error check, so only the write-error path leaves
the guard set. -/
def getCommandSingleCharErrorOrLongResponse (env : IOEnv) : IntOut :=
  if env.writeStatus ≠ 0 then
    { ret := env.writeStatus, busy := true, payload := [], flushed := false, value := none }
  else
    let payload := framedPayload env
    if env.readStatus ≠ 0 then
      { ret := env.readStatus, busy := false, payload := payload, flushed := false, value := none }
    else
      { ret := Int.ofNat env.readBytes.length, busy := false, payload := payload,
        flushed := false, value := none }

/-- `OnStep_Aux::getCommandIntResponse` (onstep_aux.cpp lines
1510-1558): reads `sizeof(char)` = 1 byte, frames, `clearBlock()`, then
checks the read status (flushing on error) and finally `sscanf("%i")`,
returning `RES_ERR_FORMAT` with a flush when the parse fails. -/
def getCommandIntResponse (env : IOEnv) : IntOut :=
  if env.writeStatus ≠ 0 then
    { ret := env.writeStatus, busy := true, payload := [], flushed := false, value := none }
  else
    let payload := framedPayload env
    if env.readStatus ≠ 0 then
      { ret := env.readStatus, busy := false, payload := payload, flushed := true, value := none }
    else if ¬ scanfIntOk payload then
      { ret := RES_ERR_FORMAT, busy := false, payload := payload, flushed := true, value := none }
    else
      { ret := Int.ofNat env.readBytes.length, busy := false, payload := payload,
        flushed := false, value := some (scanfIntVal payload) }

/-- `OCS::getCommandIntResponse` (ocs.h lines 1139-1186): same shape as
the aux variant (section read until `'#'`, no sequencing guard). -/
def ocsGetCommandIntResponse (env : IOEnv) : IntOut :=
  if env.writeStatus ≠ 0 then
    { ret := env.writeStatus, busy := false, payload := [], flushed := false, value := none }
  else
    let payload := framedPayload env
    if env.readStatus ≠ 0 then
      { ret := env.readStatus, busy := false, payload := payload, flushed := true, value := none }
    else if ¬ scanfIntOk payload then
      { ret := RES_ERR_FORMAT, busy := false, payload := payload, flushed := true, value := none }
    else
      { ret := Int.ofNat env.readBytes.length, busy := false, payload := payload,
        flushed := false, value := some (scanfIntVal payload) }

/-- `OnStep_Aux::getCommandDoubleResponse` (onstep_aux.cpp lines
1456-1505): section read, framing, `clearBlock()`, read-status check
(flush on error), then `sscanf("%lf")`; the model reports only whether
the double parse step failed (`value` is `some 0` as a placeholder on
success; no claim inspects the parsed double). -/
def getCommandDoubleResponse (env : IOEnv) : IntOut :=
  if env.writeStatus ≠ 0 then
    { ret := env.writeStatus, busy := true, payload := [], flushed := false, value := none }
  else
    let payload := framedPayload env
    if env.readStatus ≠ 0 then
      { ret := env.readStatus, busy := false, payload := payload, flushed := true, value := none }
    else if ¬ stofOk payload then
      { ret := RES_ERR_FORMAT, busy := false, payload := payload, flushed := true, value := none }
    else
      { ret := Int.ofNat env.readBytes.length, busy := false, payload := payload,
        flushed := false, value := some 0 }

/-- `OCS::getCommandDoubleResponse` (ocs.h lines 1086-1137): same shape
as the aux variant (section read until `'#'`, framing, read-status
check with flush, `sscanf("%lf")` with `RES_ERR_FORMAT` and a flush on
parse failure), without the sequencing guard. -/
def ocsGetCommandDoubleResponse (env : IOEnv) : IntOut :=
  if env.writeStatus ≠ 0 then
    { ret := env.writeStatus, busy := false, payload := [], flushed := false, value := none }
  else
    let payload := framedPayload env
    if env.readStatus ≠ 0 then
      { ret := env.readStatus, busy := false, payload := payload, flushed := true, value := none }
    else if ¬ stofOk payload then
      { ret := RES_ERR_FORMAT, busy := false, payload := payload, flushed := true, value := none }
    else
      { ret := Int.ofNat env.readBytes.length, busy := false, payload := payload,
        flushed := false, value := some 0 }

/-- ASCII bytes of the expected product string `"On-Step"` compared by
`OnStep_Aux::Handshake` (onstep_aux.cpp line 95). -/
def onStepBytes : List Nat := [79, 110, 45, 83, 116, 101, 112]

/-- ASCII bytes of `"N/A"`. -/
def naBytes : List Nat := [78, 47, 65]

/-- ASCII bytes of `"nan"`. -/
def nanBytes : List Nat := [110, 97, 110]

/-- Capability flags of the aux driver (header defaults: all `false`).
`weather_enabled` is the `int weather_enabled[4]` array; it has no
initialiser in the header (indeterminate until discovery writes it),
modelled as `[]` until discovery replaces it. -/
structure CapFlags where
  hasFocuser : Bool := false
  hasRotator : Bool := false
  hasWeather : Bool := false
  hasFeatures : Bool := false
  weather_tab_enabled : Bool := false
  weather_enabled : List Nat := []
deriving DecidableEq, Repr

/-- The driver-fatal ways `GetCapabilites` can fail to run to
completion: an uncaught `std::stof` / `std::stoi` exception, or the
sequencing-guard flag left `true` by a previous call, on which the next
call's `blockUntilClear()` spins forever (single-threaded caller). -/
inductive DiscoveryAbort where
  | stofInvalidArgument
  | stoiInvalidArgument
  | guardDeadlock
deriving DecidableEq, Repr

/-- Per-probe transport outcomes consumed by `GetCapabilites`, in
issue order: firmware, focuser count, rotator count, the four weather
measurements, feature bitmap. -/
structure CapEnv where
  fw : IOEnv
  foc : IOEnv
  rot : IOEnv
  wTemp : IOEnv
  wPres : IOEnv
  wHum : IOEnv
  wDew : IOEnv
  feat : IOEnv
deriving DecidableEq, Repr

/-- The weather-probe accept test (onstep_aux.cpp lines 167-170):
`error_or_fail > 1 && response != "N/A" && response != "nan" &&
response != "0"`. -/
def weatherProbeEnabled (r : IntOut) : Bool :=
  r.ret > 1 && r.payload != naBytes && r.payload != nanBytes && r.payload != [zeroByte]

/-- `OnStep_Aux::GetCapabilites` (onstep_aux.cpp lines 109-207),
straight-line, threading the sequencing-guard flag between probes.
`std::stof(response)` at line 123 runs unconditionally after the
firmware probe and is not wrapped in `try`; `std::stoi(response)` at
line 193 runs whenever `error_or_fail > 1` for the feature probe. -/
def GetCapabilites (env : CapEnv) : Except DiscoveryAbort CapFlags :=
  -- firmware probe
  let r1 := getCommandSingleCharErrorOrLongResponse env.fw
  -- if (error_or_fail > 1) store version / else LOG_ERROR — no flag change
  -- if (std::stof(response) < minimum_OS_fw) LOG_WARN — throws when unparsable
  if ¬ stofOk r1.payload then .error .stofInvalidArgument
  else if r1.busy then .error .guardDeadlock
  else
  -- focuser probe: int intResponse = 0;
  let r2 := getCommandIntResponse env.foc
  let intResponse1 : Int := r2.value.getD 0
  let hasFocuser := r2.ret > 0 && intResponse1 > 0
  if r2.busy then .error .guardDeadlock
  else
  -- rotator probe reuses intResponse without resetting it
  let r3 := getCommandIntResponse env.rot
  let intResponse2 : Int := r3.value.getD intResponse1
  let hasRotator := r3.ret > 0 && intResponse2 > 0
  if r3.busy then .error .guardDeadlock
  else
  -- weather probes, in enum order temperature/pressure/humidity/dew point
  let rT := getCommandSingleCharErrorOrLongResponse env.wTemp
  if rT.busy then .error .guardDeadlock
  else
  let rP := getCommandSingleCharErrorOrLongResponse env.wPres
  if rP.busy then .error .guardDeadlock
  else
  let rH := getCommandSingleCharErrorOrLongResponse env.wHum
  if rH.busy then .error .guardDeadlock
  else
  let rD := getCommandSingleCharErrorOrLongResponse env.wDew
  if rD.busy then .error .guardDeadlock
  else
  let wEnabled := [weatherProbeEnabled rT, weatherProbeEnabled rP,
                   weatherProbeEnabled rH, weatherProbeEnabled rD]
  let hasWeather := wEnabled.any id
  -- for (wmeasure = 1; wmeasure < 4; ...) — index 0 (temperature) skipped
  let weatherDisabled := (wEnabled.drop 1).countP id
  let weather_tab_enabled := weatherDisabled > 0
  -- feature probe
  let r8 := getCommandSingleCharErrorOrLongResponse env.feat
  if r8.ret > 1 ∧ ¬ scanfIntOk r8.payload then .error .stoiInvalidArgument
  else
  let hasFeatures := r8.ret > 1 && scanfIntVal r8.payload > 0
  .ok { hasFocuser := hasFocuser, hasRotator := hasRotator,
        hasWeather := hasWeather, hasFeatures := hasFeatures,
        weather_tab_enabled := weather_tab_enabled,
        weather_enabled := wEnabled.map (fun b => if b then 1 else 0) }

/-- `OnStep_Aux::Handshake` (onstep_aux.cpp lines 79-104): returns
(`handshake_status`, discovery attempted, capability flags after the
call).  `handshake_status` is assigned the accessor's `int` return
through the C++ `int` → `bool` conversion. -/
def auxHandshake (hs : IOEnv) (cap : CapEnv) : Except DiscoveryAbort (Bool × Bool × CapFlags) :=
  let r := getCommandSingleCharErrorOrLongResponse hs
  if r.payload = onStepBytes then
    if r.busy then .error .guardDeadlock
    else
      match GetCapabilites cap with
      | .error a => .error a
      | .ok flags => .ok (true, true, flags)
  else
    .ok (intToBool r.ret, false, {})

/-- A (seconds, microseconds) timeout pair. -/
structure TPair where
  s : Int
  us : Int
deriving DecidableEq, Repr

/-- Aux-driver header defaults `OSTimeoutSeconds = 0`,
`OSTimeoutMicroSeconds = 100000` (onstep_aux.h). -/
def auxDefaultPair : TPair := ⟨0, 100000⟩

/-- Aux network profile set in `updateProperties` (onstep_aux.cpp lines 437-438). -/
def auxNetworkPair : TPair := ⟨2, 0⟩

/-- Aux serial profile set in `updateProperties` (onstep_aux.cpp lines 441-442). -/
def auxSerialPair : TPair := ⟨0, 100000⟩

/-- OCS network profile set in `Handshake` (ocs.h lines 889-890). -/
def ocsNetworkPair : TPair := ⟨2, 0⟩

/-- OCS serial profile set in `Handshake` (ocs.h lines 895-896). -/
def ocsSerialPair : TPair := ⟨0, 200000⟩

/-- Events of a connect sequence: selecting the timeout profile, or
issuing a probe transaction with the timeout pair in effect. -/
inductive ConnEv where
  | select (p : TPair)
  | probe (p : TPair)
deriving DecidableEq, Repr

/-- `OCS::Handshake` connect sequence (ocs.h lines 879-950): the
profile is selected from the transport kind first, then the handshake,
dome-status and roof-delay probes are issued with it. -/
def ocsConnectTrace (tcp : Bool) : List ConnEv :=
  let p := if tcp then ocsNetworkPair else ocsSerialPair
  [.select p, .probe p, .probe p, .probe p]

/-- Aux-driver connect sequence: `Handshake` (handshake probe) calls
`GetCapabilites` (8 probes), all before the framework calls
`updateProperties` (onstep_aux.cpp lines 434-443), which is what
selects the profile; every connect-time probe therefore runs with the
header-default pair. -/
def auxConnectTrace (tcp : Bool) : List ConnEv :=
  let p := if tcp then auxNetworkPair else auxSerialPair
  List.replicate 9 (.probe auxDefaultPair) ++ [.select p]

/-- Whether an event is a `select`. -/
def ConnEv.isSelect : ConnEv → Bool
  | .select _ => true
  | .probe _ => false

/-- No probe is issued before the timeout profile is selected. -/
def noProbeBeforeSelect (tr : List ConnEv) : Bool :=
  (tr.takeWhile (fun e => ¬ e.isSelect)).all (fun e => e.isSelect)

/-- The per-discard-read timeout passed by `flushIO` to
`tty_read_section_expanded` (onstep_aux.cpp line 1641, ocs.h line
1075): 0 seconds and 1000 microseconds. -/
def flushIOReadTimeout : TPair := ⟨0, 1000⟩

/-- Number of discard reads `flushIO`'s do-while loop performs, given
the statuses the transport would return to successive reads (the list
must cover at least the reads performed; the loop repeats only
`while (error_type > 0)`). -/
def flushIOCount : List Int → Nat
  | [] => 0
  | s :: rest => 1 + (if s > 0 then flushIOCount rest else 0)

/-! ### Interleaving model of the transport lock

Each accessor holds `std::unique_lock<std::mutex> guard(commsLock)`
around its `tty_write_string` / `tty_read_*` pair (e.g. ocs.h lines
1198-1204, onstep_aux.cpp lines 1575-1581).  Two concurrent callers on
the same transport are modelled as two threads, each executing
lock → write → read → unlock once; the trace records the transport
events (writes and reads). -/

/-- A transport event: write or read by one of two threads. -/
inductive Ev where
  | w (t : Bool)
  | r (t : Bool)
deriving DecidableEq, Repr

/-- Joint state of the two callers: program counters (0 = before lock,
1 = holding/pre-write, 2 = written, 3 = read done, 4 = released) and
the mutex owner. -/
structure CState where
  pc0 : Nat
  pc1 : Nat
  mtx : Option Bool
deriving DecidableEq, Repr

/-- Transport events thread `t` has emitted when its counter is `p`. -/
def evs (p : Nat) (t : Bool) : List Ev :=
  (if 2 ≤ p then [Ev.w t] else []) ++ (if 3 ≤ p then [Ev.r t] else [])

/-- All interleavings of the two lock-protected transactions: each
thread may lock only when the mutex is free, and writes/reads only
while holding it. -/
inductive Reach : CState → List Ev → Prop where
  | init : Reach ⟨0, 0, none⟩ []
  | lock0 {p1 tr} : Reach ⟨0, p1, none⟩ tr → Reach ⟨1, p1, some false⟩ tr
  | write0 {p1 tr} : Reach ⟨1, p1, some false⟩ tr → Reach ⟨2, p1, some false⟩ (tr ++ [Ev.w false])
  | read0 {p1 tr} : Reach ⟨2, p1, some false⟩ tr → Reach ⟨3, p1, some false⟩ (tr ++ [Ev.r false])
  | unlock0 {p1 tr} : Reach ⟨3, p1, some false⟩ tr → Reach ⟨4, p1, none⟩ tr
  | lock1 {p0 tr} : Reach ⟨p0, 0, none⟩ tr → Reach ⟨p0, 1, some true⟩ tr
  | write1 {p0 tr} : Reach ⟨p0, 1, some true⟩ tr → Reach ⟨p0, 2, some true⟩ (tr ++ [Ev.w true])
  | read1 {p0 tr} : Reach ⟨p0, 2, some true⟩ tr → Reach ⟨p0, 3, some true⟩ (tr ++ [Ev.r true])
  | unlock1 {p0 tr} : Reach ⟨p0, 3, some true⟩ tr → Reach ⟨p0, 4, none⟩ tr

/-- Mutex discipline: a thread whose counter is in 1..3 owns the mutex. -/
def InvM (s : CState) : Prop :=
  (1 ≤ s.pc0 ∧ s.pc0 ≤ 3 → s.mtx = some false) ∧
  (1 ≤ s.pc1 ∧ s.pc1 ≤ 3 → s.mtx = some true) ∧
  s.pc0 ≤ 4 ∧ s.pc1 ≤ 4

/-- Trace shape: while a thread is between its write and its read, the
trace is the other thread's (completed) events followed by the pending
write; otherwise it is one thread's events followed by the other's. -/
def InvT (s : CState) (tr : List Ev) : Prop :=
  (s.pc0 = 2 ∧ tr = evs s.pc1 true ++ [Ev.w false]) ∨
  (s.pc1 = 2 ∧ tr = evs s.pc0 false ++ [Ev.w true]) ∨
  (s.pc0 ≠ 2 ∧ s.pc1 ≠ 2 ∧
    (tr = evs s.pc0 false ++ evs s.pc1 true ∨ tr = evs s.pc1 true ++ evs s.pc0 false))

/-- The finitely many transport traces the two lock-protected
transactions can produce. -/
def goodTraces : List (List Ev) :=
  [[], [.w false], [.w true],
   [.w false, .r false], [.w true, .r true],
   [.w true, .r true, .w false], [.w false, .r false, .w true],
   [.w false, .r false, .w true, .r true], [.w true, .r true, .w false, .r false]]

/-- Demonstration buffer: `"OK#"` followed by 61 garbage bytes. -/
def demoBufTerm : List Nat := [79, 75, 35] ++ List.replicate 61 55

/-- Demonstration buffer: 64 `'A'` bytes, no terminator. -/
def demoBufLong : List Nat := List.replicate 64 65

/-! ### Framing lemmas -/

/-- What `strchrHash l = some k` tells us: `k` is in range, holds the
terminator, and no byte before it is NUL (or the scan would have
stopped there). -/
theorem strchrHash_spec : ∀ (l : List Nat) (k : Nat), strchrHash l = some k →
    k < l.length ∧ l.getD k 0 = hashByte ∧ ∀ j, j < k → l.getD j 0 ≠ 0 := by
  intro l
  induction l with
  | nil => intro k h; simp [strchrHash] at h
  | cons b rest ih =>
    intro k h
    by_cases hb0 : b = 0
    · simp [strchrHash, hb0] at h
    · by_cases hbh : b = hashByte
      · simp [strchrHash, hb0, hbh] at h
        obtain ⟨-, hk⟩ := h
        subst hk
        refine ⟨by simp, by simp [hbh], ?_⟩
        intro j hj; omega
      · simp [strchrHash, hb0, hbh] at h
        obtain ⟨k2, hk2, hkk⟩ := h
        obtain ⟨h1, h2, h3⟩ := ih k2 hk2
        subst hkk
        refine ⟨by simpa using h1, by simpa using h2, ?_⟩
        intro j hj
        cases j with
        | zero => simpa using hb0
        | succ j2 =>
          have hlt : j2 < k2 := by omega
          simpa using h3 j2 hlt

/-- If no byte of `l` is the terminator, `strchrHash` finds nothing. -/
theorem strchrHash_none (l : List Nat) (h : ∀ b ∈ l, b ≠ hashByte) :
    strchrHash l = none := by
  induction l with
  | nil => rfl
  | cons b rest ih =>
    by_cases hb0 : b = 0
    · simp [strchrHash, hb0]
    · have hbh : b ≠ hashByte := h b (by simp)
      have hr := ih (fun x hx => h x (by simp [hx]))
      simp [strchrHash, hb0, hbh, hr]

/-- NUL-ing index `k` (then any index `m ≥ k`) of a buffer whose first
`k` bytes are non-NUL leaves the C-string payload equal to the first
`k` bytes. -/
theorem cstr_set_set : ∀ (l : List Nat) (k m : Nat), k < l.length → k ≤ m →
    (∀ j, j < k → l.getD j 0 ≠ 0) → cstr ((l.set k 0).set m 0) = l.take k := by
  intro l
  induction l with
  | nil => intro k m hk; simp at hk
  | cons a t ih =>
    intro k m hk hkm hpre
    cases k with
    | zero =>
      cases m with
      | zero => simp [cstr, List.takeWhile]
      | succ m2 => simp [cstr, List.takeWhile]
    | succ k2 =>
      cases m with
      | zero => omega
      | succ m2 =>
        have ha : a ≠ 0 := by simpa using hpre 0 (by omega)
        have hk2 : k2 < t.length := by simpa using hk
        have hkm2 : k2 ≤ m2 := by omega
        have hpre2 : ∀ j, j < k2 → t.getD j 0 ≠ 0 := by
          intro j hj
          simpa using hpre (j + 1) (by omega)
        show cstr (a :: ((t.set k2 0).set m2 0)) = a :: t.take k2
        rw [show cstr (a :: ((t.set k2 0).set m2 0))
              = a :: cstr ((t.set k2 0).set m2 0) by simp [cstr, List.takeWhile, ha]]
        rw [ih k2 m2 hk2 hkm2 hpre2]

/-! ### Mutual-exclusion lemmas -/

/-- Every reachable configuration satisfies the mutex discipline and
the trace-shape invariant. -/
theorem reach_inv : ∀ {s : CState} {tr : List Ev}, Reach s tr → InvM s ∧ InvT s tr := by
  intro s tr h
  induction h with
  | init =>
    refine ⟨⟨fun hc => absurd (show 1 ≤ 0 ∧ 0 ≤ 3 from hc) (by decide),
             fun hc => absurd (show 1 ≤ 0 ∧ 0 ≤ 3 from hc) (by decide),
             show (0 : Nat) ≤ 4 by decide, show (0 : Nat) ≤ 4 by decide⟩, ?_⟩
    exact Or.inr (Or.inr ⟨show (0 : Nat) ≠ 2 by decide, show (0 : Nat) ≠ 2 by decide,
      Or.inl rfl⟩)
  | @lock0 p1 tr h ih =>
    obtain ⟨⟨hA, hB, hC, hD⟩, hT⟩ := ih
    have hBc : 1 ≤ p1 ∧ p1 ≤ 3 → (none : Option Bool) = some true := hB
    have hD' : p1 ≤ 4 := hD
    have hp1ne2 : p1 ≠ 2 := fun he => absurd (hBc ⟨by omega, by omega⟩) (by simp)
    refine ⟨⟨fun _ => rfl, fun hc => absurd (hBc hc) (by simp),
             show (1 : Nat) ≤ 4 by decide, hD'⟩, ?_⟩
    rcases hT with ⟨h2, _⟩ | ⟨h2, _⟩ | ⟨_, _, htr⟩
    · exact absurd (show (0 : Nat) = 2 from h2) (by decide)
    · exact absurd (show p1 = 2 from h2) hp1ne2
    · exact Or.inr (Or.inr ⟨show (1 : Nat) ≠ 2 by decide, hp1ne2, htr⟩)
  | @write0 p1 tr h ih =>
    obtain ⟨⟨hA, hB, hC, hD⟩, hT⟩ := ih
    have hBc : 1 ≤ p1 ∧ p1 ≤ 3 → (some false : Option Bool) = some true := hB
    have hD' : p1 ≤ 4 := hD
    have hp1ne2 : p1 ≠ 2 := fun he => absurd (hBc ⟨by omega, by omega⟩) (by simp)
    refine ⟨⟨fun _ => rfl, fun hc => absurd (hBc hc) (by simp),
             show (2 : Nat) ≤ 4 by decide, hD'⟩, ?_⟩
    rcases hT with ⟨h2, _⟩ | ⟨h2, _⟩ | ⟨_, _, htr⟩
    · exact absurd (show (1 : Nat) = 2 from h2) (by decide)
    · exact absurd (show p1 = 2 from h2) hp1ne2
    · refine Or.inl ⟨show (2 : Nat) = 2 from rfl, ?_⟩
      rcases htr with htr | htr
      · have h' : tr = evs p1 true := htr
        rw [h']
      · have h' : tr = evs p1 true ++ [] := htr
        rw [List.append_nil] at h'
        rw [h']
  | @read0 p1 tr h ih =>
    obtain ⟨⟨hA, hB, hC, hD⟩, hT⟩ := ih
    have hBc : 1 ≤ p1 ∧ p1 ≤ 3 → (some false : Option Bool) = some true := hB
    have hD' : p1 ≤ 4 := hD
    have hp1ne2 : p1 ≠ 2 := fun he => absurd (hBc ⟨by omega, by omega⟩) (by simp)
    refine ⟨⟨fun _ => rfl, fun hc => absurd (hBc hc) (by simp),
             show (3 : Nat) ≤ 4 by decide, hD'⟩, ?_⟩
    rcases hT with ⟨_, htr⟩ | ⟨h2, _⟩ | ⟨h2, _, _⟩
    · refine Or.inr (Or.inr ⟨show (3 : Nat) ≠ 2 by decide, hp1ne2, Or.inr ?_⟩)
      rw [htr, List.append_assoc]
      rfl
    · exact absurd (show p1 = 2 from h2) hp1ne2
    · exact absurd (show (2 : Nat) = 2 from rfl) h2
  | @unlock0 p1 tr h ih =>
    obtain ⟨⟨hA, hB, hC, hD⟩, hT⟩ := ih
    have hBc : 1 ≤ p1 ∧ p1 ≤ 3 → (some false : Option Bool) = some true := hB
    have hD' : p1 ≤ 4 := hD
    have hp1ne2 : p1 ≠ 2 := fun he => absurd (hBc ⟨by omega, by omega⟩) (by simp)
    refine ⟨⟨fun hc => absurd (show 1 ≤ 4 ∧ 4 ≤ 3 from hc) (by decide),
             fun hc => absurd (hBc hc) (by simp),
             show (4 : Nat) ≤ 4 by decide, hD'⟩, ?_⟩
    rcases hT with ⟨h2, _⟩ | ⟨h2, _⟩ | ⟨_, _, htr⟩
    · exact absurd (show (3 : Nat) = 2 from h2) (by decide)
    · exact absurd (show p1 = 2 from h2) hp1ne2
    · exact Or.inr (Or.inr ⟨show (4 : Nat) ≠ 2 by decide, hp1ne2, htr⟩)
  | @lock1 p0 tr h ih =>
    obtain ⟨⟨hA, hB, hC, hD⟩, hT⟩ := ih
    have hAc : 1 ≤ p0 ∧ p0 ≤ 3 → (none : Option Bool) = some false := hA
    have hC' : p0 ≤ 4 := hC
    have hp0ne2 : p0 ≠ 2 := fun he => absurd (hAc ⟨by omega, by omega⟩) (by simp)
    refine ⟨⟨fun hc => absurd (hAc hc) (by simp), fun _ => rfl,
             hC', show (1 : Nat) ≤ 4 by decide⟩, ?_⟩
    rcases hT with ⟨h2, _⟩ | ⟨h2, _⟩ | ⟨_, _, htr⟩
    · exact absurd (show p0 = 2 from h2) hp0ne2
    · exact absurd (show (0 : Nat) = 2 from h2) (by decide)
    · exact Or.inr (Or.inr ⟨hp0ne2, show (1 : Nat) ≠ 2 by decide, htr⟩)
  | @write1 p0 tr h ih =>
    obtain ⟨⟨hA, hB, hC, hD⟩, hT⟩ := ih
    have hAc : 1 ≤ p0 ∧ p0 ≤ 3 → (some true : Option Bool) = some false := hA
    have hC' : p0 ≤ 4 := hC
    have hp0ne2 : p0 ≠ 2 := fun he => absurd (hAc ⟨by omega, by omega⟩) (by simp)
    refine ⟨⟨fun hc => absurd (hAc hc) (by simp), fun _ => rfl,
             hC', show (2 : Nat) ≤ 4 by decide⟩, ?_⟩
    rcases hT with ⟨h2, _⟩ | ⟨h2, _⟩ | ⟨_, _, htr⟩
    · exact absurd (show p0 = 2 from h2) hp0ne2
    · exact absurd (show (1 : Nat) = 2 from h2) (by decide)
    · refine Or.inr (Or.inl ⟨show (2 : Nat) = 2 from rfl, ?_⟩)
      rcases htr with htr | htr
      · have h' : tr = evs p0 false ++ [] := htr
        rw [List.append_nil] at h'
        rw [h']
      · have h' : tr = evs p0 false := htr
        rw [h']
  | @read1 p0 tr h ih =>
    obtain ⟨⟨hA, hB, hC, hD⟩, hT⟩ := ih
    have hAc : 1 ≤ p0 ∧ p0 ≤ 3 → (some true : Option Bool) = some false := hA
    have hC' : p0 ≤ 4 := hC
    have hp0ne2 : p0 ≠ 2 := fun he => absurd (hAc ⟨by omega, by omega⟩) (by simp)
    refine ⟨⟨fun hc => absurd (hAc hc) (by simp), fun _ => rfl,
             hC', show (3 : Nat) ≤ 4 by decide⟩, ?_⟩
    rcases hT with ⟨h2, _⟩ | ⟨_, htr⟩ | ⟨_, h2, _⟩
    · exact absurd (show p0 = 2 from h2) hp0ne2
    · refine Or.inr (Or.inr ⟨hp0ne2, show (3 : Nat) ≠ 2 by decide, Or.inl ?_⟩)
      rw [htr, List.append_assoc]
      rfl
    · exact absurd (show (2 : Nat) = 2 from rfl) h2
  | @unlock1 p0 tr h ih =>
    obtain ⟨⟨hA, hB, hC, hD⟩, hT⟩ := ih
    have hAc : 1 ≤ p0 ∧ p0 ≤ 3 → (some true : Option Bool) = some false := hA
    have hC' : p0 ≤ 4 := hC
    have hp0ne2 : p0 ≠ 2 := fun he => absurd (hAc ⟨by omega, by omega⟩) (by simp)
    refine ⟨⟨fun hc => absurd (hAc hc) (by simp),
             fun hc => absurd (show 1 ≤ 4 ∧ 4 ≤ 3 from hc) (by decide),
             hC', show (4 : Nat) ≤ 4 by decide⟩, ?_⟩
    rcases hT with ⟨h2, _⟩ | ⟨h2, _⟩ | ⟨_, _, htr⟩
    · exact absurd (show p0 = 2 from h2) hp0ne2
    · exact absurd (show (3 : Nat) = 2 from h2) (by decide)
    · exact Or.inr (Or.inr ⟨hp0ne2, show (4 : Nat) ≠ 2 by decide, htr⟩)

/-- Every reachable trace is one of `goodTraces`. -/
theorem reach_goodTraces {s : CState} {tr : List Ev} (h : Reach s tr) :
    tr ∈ goodTraces := by
  obtain ⟨⟨hA, hB, hC, hD⟩, hT⟩ := reach_inv h
  rcases hT with ⟨h2, htr⟩ | ⟨h2, htr⟩ | ⟨h2a, h2b, htr⟩
  · have hm := hA ⟨by omega, by omega⟩
    have hp1 : s.pc1 = 0 ∨ s.pc1 = 4 := by
      by_cases hc : 1 ≤ s.pc1 ∧ s.pc1 ≤ 3
      · rw [hm] at hB
        exact absurd (hB hc) (by simp)
      · omega
    rcases hp1 with hp | hp <;> rw [hp] at htr <;> rw [htr] <;> decide
  · have hm := hB ⟨by omega, by omega⟩
    have hp0 : s.pc0 = 0 ∨ s.pc0 = 4 := by
      by_cases hc : 1 ≤ s.pc0 ∧ s.pc0 ≤ 3
      · rw [hm] at hA
        exact absurd (hA hc) (by simp)
      · omega
    rcases hp0 with hp | hp <;> rw [hp] at htr <;> rw [htr] <;> decide
  · have e0 : evs s.pc0 false = [] ∨ evs s.pc0 false = [Ev.w false, Ev.r false] := by
      unfold evs
      by_cases hc : 2 ≤ s.pc0
      · rw [if_pos hc, if_pos (show 3 ≤ s.pc0 by omega)]
        right
        rfl
      · rw [if_neg hc, if_neg (show ¬ 3 ≤ s.pc0 by omega)]
        left
        rfl
    have e1 : evs s.pc1 true = [] ∨ evs s.pc1 true = [Ev.w true, Ev.r true] := by
      unfold evs
      by_cases hc : 2 ≤ s.pc1
      · rw [if_pos hc, if_pos (show 3 ≤ s.pc1 by omega)]
        right
        rfl
      · rw [if_neg hc, if_neg (show ¬ 3 ≤ s.pc1 by omega)]
        left
        rfl
    rcases htr with htr | htr <;> rcases e0 with e | e <;> rcases e1 with f | f <;>
      rw [e, f] at htr <;> rw [htr] <;> decide


/-! ### Claim theorems -/

/-- C1: the claim says every Sequencing-Guard-wrapped call leaves
`waitingForResponse = false` on every exit path.  The code violates it:
on a transport write error (`tty_write_string ≠ TTY_OK`, e.g.
`TTY_WRITE_ERROR = -2`) all five accessors return before
`clearBlock()`, and `getCommandSingleCharResponse` does so on a read
error (`TTY_TIME_OUT = -4`) as well, leaving the busy flag `true`. -/
theorem C1_guard_left_busy_on_write_error :
    (sendOSCommand ⟨-2, 0, []⟩).busy = true ∧
    (getCommandSingleCharResponse ⟨-2, 0, []⟩).busy = true ∧
    (getCommandDoubleResponse ⟨-2, 0, []⟩).busy = true ∧
    (getCommandIntResponse ⟨-2, 0, []⟩).busy = true ∧
    (getCommandSingleCharErrorOrLongResponse ⟨-2, 0, []⟩).busy = true ∧
    (getCommandSingleCharResponse ⟨0, -4, []⟩).busy = true := by
  decide

/-- C2: the claim says a handshake timeout yields `Handshake = false`.
In the code `handshake_status` receives the accessor's `int` return
(`TTY_TIME_OUT = -4` on a read timeout with no bytes) through the C++
`int` → `bool` conversion, so `Handshake` returns `true`; discovery is
indeed not attempted and the capability flags stay at their defaults. -/
theorem C2_handshake_timeout_returns_true :
    ∀ cap : CapEnv,
      auxHandshake ⟨0, -4, []⟩ cap = .ok (true, false, ({} : CapFlags)) :=
  fun _ => rfl

/-- C3: two concurrent callers' transactions on one transport are never
interleaved as write₁, write₂, read₁ (the write of one transaction and
its matching read are never separated by the other transaction's
write), because both the write and the read happen inside one
`std::unique_lock` critical section. -/
theorem C3_transport_mutual_exclusion {s : CState} {tr : List Ev} (h : Reach s tr) :
    ¬ ∃ a b : Bool, a ≠ b ∧ [Ev.w a, Ev.w b, Ev.r a].Sublist tr := by
  intro hbad
  obtain ⟨a, b, hab, hsub⟩ := hbad
  have hg := reach_goodTraces h
  simp only [goodTraces, List.mem_cons, List.not_mem_nil, or_false] at hg
  rcases hg with rfl | rfl | rfl | rfl | rfl | rfl | rfl | rfl | rfl <;>
    revert a b <;> decide

/-- Witness for C3 at the completed two-transaction interleaving. -/
theorem C3_transport_mutual_exclusion_witness :
    ¬ ∃ a b : Bool, a ≠ b ∧ [Ev.w a, Ev.w b, Ev.r a].Sublist
      ([] ++ [Ev.w false] ++ [Ev.r false] ++ [Ev.w true] ++ [Ev.r true]) :=
  C3_transport_mutual_exclusion
    (Reach.unlock1 (Reach.read1 (Reach.write1 (Reach.lock1
      (Reach.unlock0 (Reach.read0 (Reach.write0 (Reach.lock0 Reach.init))))))))

/-- C4: framing idempotence and truncation safety.  If the first
terminator is at position `k` of the 64-byte buffer, the payload is
exactly the first `k` bytes whatever trails it; if 64 or more bytes
arrived with no terminator, only index 63 is written and the payload is
the first 63 bytes. -/
theorem C4_framing_idempotence_and_truncation :
    (∀ (buf : List Nat) (n k : Nat), buf.length = RB_MAX_LEN →
      strchrHash buf = some k → k < n →
      cstr (frameBuffer buf n) = buf.take k) ∧
    (∀ (buf : List Nat) (n : Nat), buf.length = RB_MAX_LEN →
      (∀ b ∈ buf, b ≠ 0 ∧ b ≠ hashByte) → RB_MAX_LEN ≤ n →
      cstr (frameBuffer buf n) = buf.take 63 ∧
      (cstr (frameBuffer buf n)).length = 63 ∧
      frameWrites buf n = [63]) := by
  constructor
  · intro buf n k hlen hs hkn
    obtain ⟨hk, hhash, hpre⟩ := strchrHash_spec buf k hs
    unfold frameBuffer
    simp only [hs]
    by_cases hn : n < RB_MAX_LEN
    · rw [if_pos hn]
      exact cstr_set_set buf k n hk (le_of_lt hkn) hpre
    · rw [if_neg hn]
      refine cstr_set_set buf k (RB_MAX_LEN - 1) hk ?_ hpre
      have : k < RB_MAX_LEN := hlen ▸ hk
      omega
  · intro buf n hlen hclean hn
    have hnone : strchrHash buf = none :=
      strchrHash_none buf (fun b hb => (hclean b hb).2)
    have hpre : ∀ j, j < 63 → buf.getD j 0 ≠ 0 := by
      intro j hj
      have hjlen : j < buf.length := by
        rw [hlen]; simp [RB_MAX_LEN]; omega
      rw [List.getD_eq_getElem buf 0 hjlen]
      exact (hclean _ (List.getElem_mem hjlen)).1
    have hset : frameBuffer buf n = buf.set 63 0 := by
      unfold frameBuffer
      simp only [hnone]
      rw [if_neg (by simp [RB_MAX_LEN] at hn ⊢; omega)]
      rfl
    have hcs : cstr (frameBuffer buf n) = buf.take 63 := by
      rw [hset, show buf.set 63 0 = (buf.set 63 0).set 63 0 by rw [List.set_set]]
      exact cstr_set_set buf 63 63 (by rw [hlen]; simp [RB_MAX_LEN]) le_rfl hpre
    refine ⟨hcs, ?_, ?_⟩
    · rw [hcs, List.length_take, hlen]
      simp [RB_MAX_LEN]
    · unfold frameWrites
      simp only [hnone]
      rw [if_neg (by simp [RB_MAX_LEN] at hn ⊢; omega)]
      rfl

/-- Witness for C4 on concrete buffers: `"OK#"` plus garbage, and 64
terminator-free bytes. -/
theorem C4_framing_witness :
    cstr (frameBuffer demoBufTerm 10) = demoBufTerm.take 2 ∧
    (cstr (frameBuffer demoBufLong 80) = demoBufLong.take 63 ∧
     (cstr (frameBuffer demoBufLong 80)).length = 63 ∧
     frameWrites demoBufLong 80 = [63]) :=
  ⟨C4_framing_idempotence_and_truncation.1 demoBufTerm 10 2 (by decide) (by decide)
     (by decide),
   C4_framing_idempotence_and_truncation.2 demoBufLong 80 (by decide) (by decide)
     (by decide)⟩

/-- C5: the claim says a failed or empty firmware-version probe only
warns and discovery continues.  In the code the unguarded
`std::stof(response)` at onstep_aux.cpp line 123 runs after the failed
probe on the empty buffer and throws `std::invalid_argument`, aborting
discovery before the focuser probe (here all later probes would have
succeeded). -/
theorem C5_discovery_aborts_on_firmware_probe_failure :
    GetCapabilites
      { fw := ⟨0, -4, []⟩,
        foc := ⟨0, 0, [49]⟩,
        rot := ⟨0, 0, [48]⟩,
        wTemp := ⟨0, 0, [50, 50, 35]⟩,
        wPres := ⟨0, 0, [57, 57, 48, 35]⟩,
        wHum := ⟨0, 0, [53, 48, 35]⟩,
        wDew := ⟨0, 0, [49, 48, 35]⟩,
        feat := ⟨0, 0, [48, 35]⟩ }
      = .error .stofInvalidArgument := by
  rfl

/-- C6: a numeric-expecting transaction whose payload fails the
expected numeric parse (`sscanf("%i")` for the integer accessors,
`sscanf("%lf")` for the float accessors) returns the sentinel
`RES_ERR_FORMAT = -1001` (distinct from every tty failure code and
from 0), does not write the out-parameter, and flushes the transport
on that path — in both drivers' `getCommandIntResponse` and both
drivers' `getCommandDoubleResponse`. -/
theorem C6_format_error_sentinel :
    ∀ env : IOEnv, env.writeStatus = 0 → env.readStatus = 0 →
      scanfIntOk (framedPayload env) = false →
      stofOk (framedPayload env) = false →
      ((getCommandIntResponse env).ret = RES_ERR_FORMAT ∧
       (getCommandIntResponse env).flushed = true ∧
       (getCommandIntResponse env).value = none ∧
       (ocsGetCommandIntResponse env).ret = RES_ERR_FORMAT ∧
       (ocsGetCommandIntResponse env).flushed = true ∧
       (ocsGetCommandIntResponse env).value = none) ∧
      ((getCommandDoubleResponse env).ret = RES_ERR_FORMAT ∧
       (getCommandDoubleResponse env).flushed = true ∧
       (getCommandDoubleResponse env).value = none ∧
       (ocsGetCommandDoubleResponse env).ret = RES_ERR_FORMAT ∧
       (ocsGetCommandDoubleResponse env).flushed = true ∧
       (ocsGetCommandDoubleResponse env).value = none) ∧
      RES_ERR_FORMAT ∉ ttyFailureCodes ∧ RES_ERR_FORMAT ≠ 0 := by
  intro env hw hr hpi hpf
  refine ⟨?_, ?_, by decide, by decide⟩
  · simp [getCommandIntResponse, ocsGetCommandIntResponse, hw, hr, hpi]
  · simp [getCommandDoubleResponse, ocsGetCommandDoubleResponse, hw, hr, hpf]

/-- Witness for C6 at the payload `"ERR"`, exercising the integer and
float accessors of both drivers. -/
theorem C6_format_error_witness :
    scanfIntOk (framedPayload ⟨0, 0, [69, 82, 82]⟩) = false ∧
    stofOk (framedPayload ⟨0, 0, [69, 82, 82]⟩) = false ∧
    (getCommandIntResponse ⟨0, 0, [69, 82, 82]⟩).ret = RES_ERR_FORMAT ∧
    (ocsGetCommandIntResponse ⟨0, 0, [69, 82, 82]⟩).ret = RES_ERR_FORMAT ∧
    (getCommandDoubleResponse ⟨0, 0, [69, 82, 82]⟩).ret = RES_ERR_FORMAT ∧
    (ocsGetCommandDoubleResponse ⟨0, 0, [69, 82, 82]⟩).ret = RES_ERR_FORMAT :=
  ⟨by decide, by decide,
   ((C6_format_error_sentinel ⟨0, 0, [69, 82, 82]⟩ rfl rfl (by decide) (by decide)).1).1,
   ((C6_format_error_sentinel ⟨0, 0, [69, 82, 82]⟩ rfl rfl (by decide) (by decide)).1).2.2.2.1,
   ((C6_format_error_sentinel ⟨0, 0, [69, 82, 82]⟩ rfl rfl (by decide) (by decide)).2.1).1,
   ((C6_format_error_sentinel ⟨0, 0, [69, 82, 82]⟩ rfl rfl (by decide) (by decide)).2.1).2.2.2.1⟩

/-- C7 counterexample: in the aux driver's connect sequence over TCP
the handshake-time capability probes precede the timeout-profile
selection and run with the header-default pair (0 s, 100000 µs), not
the network profile. -/
theorem C7_aux_probe_precedes_selection :
    noProbeBeforeSelect (auxConnectTrace true) = false ∧
    (auxConnectTrace true).headD (.select auxDefaultPair) = .probe auxDefaultPair ∧
    auxDefaultPair ≠ auxNetworkPair ∧
    (auxConnectTrace true).getLast? = some (.select auxNetworkPair) := by
  decide

/-- C7 amended: in the dome (OCS) driver the profile is selected in
`Handshake` before any probe and every connect-time probe uses it; in
the aux driver every probe before the selection runs with the default
pair and the selection (in `updateProperties`) is a function of the
transport kind alone. -/
theorem C7_timeout_profile_selection_amended :
    ∀ tcp : Bool,
      noProbeBeforeSelect (ocsConnectTrace tcp) = true ∧
      ((ocsConnectTrace tcp).all fun e =>
        match e with
        | .select p => p = (if tcp then ocsNetworkPair else ocsSerialPair)
        | .probe p => p = (if tcp then ocsNetworkPair else ocsSerialPair)) = true ∧
      (((auxConnectTrace tcp).takeWhile (fun e => ¬ e.isSelect)).all
        (fun e => e = .probe auxDefaultPair)) = true ∧
      (auxConnectTrace tcp).getLast? =
        some (.select (if tcp then auxNetworkPair else auxSerialPair)) := by
  intro tcp
  cases tcp <;> decide

/-- C8: through the success/fail accessors, the single byte `'0'`
yields `true` and any other single byte (such as `'1'`) yields
`false`, in both drivers. -/
theorem C8_single_char_success_convention :
    ((sendOSCommand ⟨0, 0, [zeroByte]⟩).ret = true ∧
     (sendOCSCommand ⟨0, 0, [zeroByte]⟩).ret = true) ∧
    ∀ b : Nat, b ≠ zeroByte →
      (sendOSCommand ⟨0, 0, [b]⟩).ret = false ∧
      (sendOCSCommand ⟨0, 0, [b]⟩).ret = false := by
  refine ⟨by decide, ?_⟩
  intro b hb
  constructor <;> simp [sendOSCommand, sendOCSCommand] <;> simpa [zeroByte] using hb

/-- Witness for C8 at the failure byte `'1'` (ASCII 49). -/
theorem C8_single_char_witness :
    (49 : Nat) ≠ zeroByte ∧
    (sendOSCommand ⟨0, 0, [49]⟩).ret = false ∧
    (sendOCSCommand ⟨0, 0, [49]⟩).ret = false :=
  ⟨by decide,
   (C8_single_char_success_convention.2 49 (by decide)).1,
   (C8_single_char_success_convention.2 49 (by decide)).2⟩

/-- C9 counterexample: the per-discard-read timeout `flushIO` passes is
(0 s, 1000 µs) = 1 millisecond, not ≈1 second; and with two successful
drain reads available the do-while loop (`while (error_type > 0)`)
still stops after the first read, since tty statuses are never
positive. -/
theorem C9_flush_timeout_one_millisecond :
    flushIOReadTimeout = ⟨0, 1000⟩ ∧
    flushIOReadTimeout.s * 1000000 + flushIOReadTimeout.us = 1000 ∧
    flushIOCount [0, 0, -4] = 1 := by
  decide

/-- C9 amended: each discard read waits (0 s, 1000 µs); the loop
repeats only while a read reports a positive status, so with tty
statuses (0 = success, negative = timeout/error) exactly one discard
read is performed. -/
theorem C9_flush_single_read_amended :
    ∀ (st : Int) (rest : List Int), st ≤ 0 →
      flushIOCount (st :: rest) = 1 ∧ flushIOReadTimeout = ⟨0, 1000⟩ := by
  intro st rest hst
  refine ⟨?_, rfl⟩
  simp [flushIOCount, show ¬ st > 0 from not_lt.mpr hst]

/-- Witness for C9 at a timed-out first read (`TTY_TIME_OUT = -4`). -/
theorem C9_flush_witness :
    flushIOCount [-4] = 1 ∧ flushIOReadTimeout = ⟨0, 1000⟩ :=
  C9_flush_single_read_amended (-4) [] (by decide)

/-- C10: a transport write failure makes the bool-returning accessors
return the raw nonzero tty error code, which converts to `true` —
indistinguishable at the boolean interface from a successful command
acknowledged with `'0'`. -/
theorem C10_write_error_reads_as_success :
    ∀ e : Int, e ≠ 0 →
      (sendOSCommand ⟨e, 0, []⟩).ret = true ∧
      (sendOCSCommand ⟨e, 0, []⟩).ret = true ∧
      (sendOSCommand ⟨e, 0, []⟩).ret = (sendOSCommand ⟨0, 0, [zeroByte]⟩).ret := by
  intro e he
  refine ⟨?_, ?_, ?_⟩ <;> simp [sendOSCommand, sendOCSCommand, intToBool, he]

/-- Witness for C10 at `TTY_WRITE_ERROR = -2`. -/
theorem C10_write_error_witness :
    (-2 : Int) ≠ 0 ∧
    (sendOSCommand ⟨-2, 0, []⟩).ret = true ∧
    (sendOCSCommand ⟨-2, 0, []⟩).ret = true :=
  ⟨by decide,
   (C10_write_error_reads_as_success (-2) (by decide)).1,
   (C10_write_error_reads_as_success (-2) (by decide)).2.1⟩

end OnStepDrivers
